import Mathlib

/-!
Verification of the AI-orchestration service of the gen-safe-ai repository
(`src/services/aiService.js` and the `/api/analysis/generate` route).

The shallow embedding below translates the JavaScript pipeline into Lean:

* JavaScript values produced by `JSON.parse` are modelled by the inductive
  type `Json` (number literals keep their source token, so no floating-point
  rounding is modelled; the claims under scrutiny never depend on numeric
  rounding).
* `JSON.parse` is modelled by `Json.parse`, a fuel-indexed total parser for
  the JSON grammar accepted by the JavaScript builtin (leading/trailing
  whitespace allowed, full consumption required, duplicate object keys
  overwrite in place, `\u` escapes decoded, control characters rejected
  inside strings).
* The single external effect of the service — the chat-completion call — is
  modelled by a `CallOutcome` argument: either the raw reply text, or an
  error record carrying the `code` / `status` fields inspected by the
  `catch` blocks.
* Stateless helper functions of the source (`parseFMECAFallback`,
  `generateMockFMECA`, `determineSystemType`, …) are translated one-to-one.
-/

/-- JavaScript values obtainable from `JSON.parse` (numbers keep their
source token, so `Json.num "96"` is the number `96`). -/
inductive Json where
  | null : Json
  | bool (b : Bool) : Json
  | num (token : String) : Json
  | str (s : String) : Json
  | arr (elements : List Json) : Json
  | obj (fields : List (String × Json)) : Json
deriving Repr

/-- Whitespace characters accepted between JSON tokens by `JSON.parse`. -/
def jsonWs (c : Char) : Bool :=
  c = ' ' || c = '\t' || c = '\n' || c = '\r'

/-- Drop leading JSON whitespace. -/
def skipWs : List Char → List Char
  | [] => []
  | c :: rest => if jsonWs c then skipWs rest else c :: rest

/-- Value of a hexadecimal digit, for `\u` escapes. -/
def hexVal (c : Char) : Option Nat :=
  if '0' ≤ c ∧ c ≤ '9' then some (c.toNat - '0'.toNat)
  else if 'a' ≤ c ∧ c ≤ 'f' then some (c.toNat - 'a'.toNat + 10)
  else if 'A' ≤ c ∧ c ≤ 'F' then some (c.toNat - 'A'.toNat + 10)
  else none

/-- Property assignment on a parsed-JSON object: overwrite the value in
place when the key exists, append otherwise.  This is also how duplicate
keys behave in the JavaScript builtin parser (first position, last value). -/
def insertField (fields : List (String × Json)) (k : String) (v : Json) :
    List (String × Json) :=
  match fields with
  | [] => [(k, v)]
  | (k', v') :: rest =>
    if k' = k then (k, v) :: rest else (k', v') :: insertField rest k v

/-- Longest prefix of decimal digits, with the remainder. -/
def spanDigits (cs : List Char) : List Char × List Char :=
  (cs.takeWhile Char.isDigit, cs.dropWhile Char.isDigit)

/-- Integer part of a JSON number: `0`, or a nonzero digit followed by
digits (a leading `0` cannot be followed by more digits). -/
def parseIntPart : List Char → Option (List Char × List Char)
  | [] => none
  | c :: rest =>
    if c = '0' then some (['0'], rest)
    else if c.isDigit then
      let (d, r) := spanDigits rest
      some (c :: d, r)
    else none

/-- Optional fraction part `.digits` of a JSON number. -/
def parseFrac (cs : List Char) : Option (List Char × List Char) :=
  match cs with
  | '.' :: r =>
    let (d, r') := spanDigits r
    if d.isEmpty then none else some ('.' :: d, r')
  | _ => some ([], cs)

/-- Optional exponent part of a JSON number. -/
def parseExp (cs : List Char) : Option (List Char × List Char) :=
  match cs with
  | c :: r =>
    if c = 'e' ∨ c = 'E' then
      let (sgn, r1) :=
        match r with
        | '+' :: rr => (['+'], rr)
        | '-' :: rr => (['-'], rr)
        | _ => ([], r)
      let (d, r2) := spanDigits r1
      if d.isEmpty then none else some (c :: (sgn ++ d), r2)
    else some ([], c :: r)
  | [] => some ([], [])

/-- Parse a JSON number, returning its source token. -/
def parseNumber (cs : List Char) : Option (String × List Char) :=
  let (neg, cs1) :=
    match cs with
    | '-' :: r => (['-'], r)
    | _ => ([], cs)
  match parseIntPart cs1 with
  | none => none
  | some (ip, r1) =>
    match parseFrac r1 with
    | none => none
    | some (fp, r2) =>
      match parseExp r2 with
      | none => none
      | some (ep, r3) => some (⟨neg ++ ip ++ fp ++ ep⟩, r3)

/-- Parse the body of a JSON string (the opening quote already consumed). -/
def parseStringRest (fuel : Nat) (cs : List Char) (acc : List Char) :
    Option (String × List Char) :=
  match fuel with
  | 0 => none
  | fuel + 1 =>
    match cs with
    | [] => none
    | '"' :: rest => some (⟨acc⟩, rest)
    | '\\' :: e :: rest =>
      match e with
      | '"' => parseStringRest fuel rest (acc ++ ['"'])
      | '\\' => parseStringRest fuel rest (acc ++ ['\\'])
      | '/' => parseStringRest fuel rest (acc ++ ['/'])
      | 'b' => parseStringRest fuel rest (acc ++ [Char.ofNat 8])
      | 'f' => parseStringRest fuel rest (acc ++ [Char.ofNat 12])
      | 'n' => parseStringRest fuel rest (acc ++ ['\n'])
      | 'r' => parseStringRest fuel rest (acc ++ ['\r'])
      | 't' => parseStringRest fuel rest (acc ++ ['\t'])
      | 'u' =>
        match rest with
        | h1 :: h2 :: h3 :: h4 :: rest' =>
          match hexVal h1, hexVal h2, hexVal h3, hexVal h4 with
          | some a, some b, some c, some d =>
            parseStringRest fuel rest'
              (acc ++ [Char.ofNat (((a * 16 + b) * 16 + c) * 16 + d)])
          | _, _, _, _ => none
        | _ => none
      | _ => none
    | c :: rest =>
      if c.toNat < 32 then none else parseStringRest fuel rest (acc ++ [c])

mutual

/-- Parse one JSON value (leading whitespace allowed). -/
def parseValue (fuel : Nat) (cs : List Char) : Option (Json × List Char) :=
  match fuel with
  | 0 => none
  | fuel + 1 =>
    match skipWs cs with
    | [] => none
    | '{' :: rest =>
      match skipWs rest with
      | '}' :: r => some (Json.obj [], r)
      | r => parseMembers fuel r []
    | '[' :: rest =>
      match skipWs rest with
      | ']' :: r => some (Json.arr [], r)
      | r => parseElements fuel r []
    | '"' :: rest =>
      match parseStringRest fuel rest [] with
      | some (s, r) => some (Json.str s, r)
      | none => none
    | 't' :: 'r' :: 'u' :: 'e' :: rest => some (Json.bool true, rest)
    | 'f' :: 'a' :: 'l' :: 's' :: 'e' :: rest => some (Json.bool false, rest)
    | 'n' :: 'u' :: 'l' :: 'l' :: rest => some (Json.null, rest)
    | c :: rest =>
      if c = '-' ∨ c.isDigit then
        match parseNumber (c :: rest) with
        | some (tok, r) => some (Json.num tok, r)
        | none => none
      else none

/-- Parse the members of a JSON object (after `{`, first key expected). -/
def parseMembers (fuel : Nat) (cs : List Char) (acc : List (String × Json)) :
    Option (Json × List Char) :=
  match fuel with
  | 0 => none
  | fuel + 1 =>
    match cs with
    | '"' :: rest =>
      match parseStringRest fuel rest [] with
      | none => none
      | some (key, r1) =>
        match skipWs r1 with
        | ':' :: r2 =>
          match parseValue fuel r2 with
          | none => none
          | some (v, r3) =>
            match skipWs r3 with
            | ',' :: r4 => parseMembers fuel (skipWs r4) (insertField acc key v)
            | '}' :: r4 => some (Json.obj (insertField acc key v), r4)
            | _ => none
        | _ => none
    | _ => none

/-- Parse the elements of a JSON array (after `[`, first element expected). -/
def parseElements (fuel : Nat) (cs : List Char) (acc : List Json) :
    Option (Json × List Char) :=
  match fuel with
  | 0 => none
  | fuel + 1 =>
    match parseValue fuel cs with
    | none => none
    | some (v, r1) =>
      match skipWs r1 with
      | ',' :: r2 => parseElements fuel r2 (acc ++ [v])
      | ']' :: r2 => some (Json.arr (acc ++ [v]), r2)
      | _ => none

end

/-- Model of the JavaScript builtin `JSON.parse`: `none` exactly when the
builtin throws a `SyntaxError`. -/
def Json.parse (s : String) : Option Json :=
  match parseValue (4 * (s.length + 1)) s.data with
  | some (v, rest) => if (skipWs rest).isEmpty then some v else none
  | none => none

/-! ## Candidate extraction (`responseText.match(/\{[\s\S]*\}/)`)

The greedy regex matches the span from the first `{` that is followed by a
later `}` up to the last `}` of the string; since any `}` occurring after
some `{` also occurs after the *first* `{`, a match exists exactly when the
last `}` lies strictly after the first `{`, and then it is the span from
the first `{` to the last `}`.  When there is no match, the source parses
the whole reply (`jsonMatch ? jsonMatch[0] : responseText`). -/

/-- Index of the first occurrence of a character. -/
def firstIdx (c : Char) : List Char → Option Nat
  | [] => none
  | x :: xs => if x = c then some 0 else (firstIdx c xs).map (· + 1)

/-- Index of the last occurrence of a character. -/
def lastIdx (c : Char) (l : List Char) : Option Nat :=
  match firstIdx c l.reverse with
  | some k => some (l.length - 1 - k)
  | none => none

/-- The candidate JSON text selected from a raw model reply: the span from
the first `{` to the last `}` when the latter comes after the former, the
whole reply otherwise. -/
def extractCandidate (s : String) : String :=
  match firstIdx '{' s.data, lastIdx '}' s.data with
  | some i, some j => if i < j then ⟨(s.data.drop i).take (j - i + 1)⟩ else s
  | _, _ => s

/-! ## JavaScript value helpers -/

/-- Whether a JSON number token denotes zero (every mantissa digit is `0`). -/
def numTokenIsZero (token : String) : Bool :=
  (token.data.takeWhile (fun c => c != 'e' && c != 'E')).all
    (fun c => !c.isDigit || c == '0')

/-- JavaScript truthiness of a parsed-JSON value. -/
def jsTruthy : Json → Bool
  | .null => false
  | .bool b => b
  | .num t => !(numTokenIsZero t)
  | .str s => s != ""
  | .arr _ => true
  | .obj _ => true

/-- First binding of a key in an object's field list (keys are unique by
construction, see `insertField`). -/
def lookupField (fields : List (String × Json)) (k : String) : Option Json :=
  match fields with
  | [] => none
  | (k', v) :: rest => if k' = k then some v else lookupField rest k

/-- JavaScript property read `base.k` on a parsed-JSON value: throws
(`Except.error`) on `null`, yields `undefined` on primitives and arrays,
looks the key up on objects.  `undefined` is modelled as `Json.null`; the
pipelines only test the result for truthiness, and both are falsy. -/
def getProp : Json → String → Except Unit Json
  | .null, _ => .error ()
  | .obj fields, k => .ok ((lookupField fields k).getD Json.null)
  | _, _ => .ok Json.null

/-- JavaScript property write `base.k = v`: effective only on objects (the
pipelines never reach the write on another shape). -/
def setProp : Json → String → Json → Json
  | .obj fields, k, v => .obj (insertField fields k v)
  | j, _, _ => j

/-- JavaScript string coercion as used by `+=`: exact for strings (the only
shape reachable with a truthy diagram field), approximate otherwise. -/
def jsToString : Json → String
  | .str s => s
  | .num t => t
  | .bool b => if b then "true" else "false"
  | .null => "null"
  | .arr _ => ""
  | .obj _ => "[object Object]"

/-- `String.prototype.trim` (modelled on the ASCII whitespace the claims
exercise). -/
def jsTrim (s : String) : String :=
  ⟨((s.data.dropWhile jsonWs).reverse.dropWhile jsonWs).reverse⟩

/-- `String.prototype.toLowerCase`, modelled on ASCII. -/
def asciiLower (c : Char) : Char :=
  if 'A' ≤ c ∧ c ≤ 'Z' then Char.ofNat (c.toNat + 32) else c

/-- Lower-case a string (ASCII). -/
def jsToLower (s : String) : String := ⟨s.data.map asciiLower⟩

/-- Whether `needle` occurs contiguously inside `hay`. -/
def occursIn (needle hay : List Char) : Bool :=
  (List.range (hay.length + 1)).any (fun i => needle.isPrefixOf (hay.drop i))

/-- `String.prototype.includes`. -/
def strIncludes (s needle : String) : Bool := occursIn needle.data s.data

/-- `Array.prototype.join(sep)` on a list of strings. -/
def joinSep (sep : String) : List String → String
  | [] => ""
  | [x] => x
  | x :: y :: xs => x ++ sep ++ joinSep sep (y :: xs)

/-! ## Caller-supplied system descriptions -/

/-- One entry of the `components` array of a structured description. -/
structure Component where
  name : String
  function : String

/-- The system description handed to the generators.  The structured form
carries `systemName`/`components`/`safetyStandards`; the simple form only a
`description`.  Absent JavaScript fields are `none`/`[]`; interpolating an
absent `systemName` is modelled as the JavaScript string `"undefined"`
(never reached for validated structured inputs). -/
structure SystemDescription where
  systemName : Option String := none
  description : String := ""
  components : List Component := []
  safetyStandards : Option (List String) := none

/-! ## FMECA report values and the canned fallback (`generateMockFMECA`) -/

/-- One row of an FMECA table (shape of the mock data). -/
structure FmecaEntry where
  itemFunction : String
  failureMode : String
  failureCause : String
  localEffect : String
  systemEffect : String
  endEffect : String
  severity : Nat
  occurrence : Nat
  detection : Nat
  rpn : Nat
  recommendedAction : String

/-- The `summary` object of an FMECA report. -/
structure FmecaSummary where
  totalFailureModes : Nat
  highRiskItems : Nat
  averageRPN : Nat
  keyRecommendations : List String

/-- An FMECA report of the shape produced by `generateMockFMECA`. -/
structure Fmeca where
  fmecaTable : List FmecaEntry
  summary : FmecaSummary

/-- The mock FMECA row as the JavaScript object it denotes. -/
def FmecaEntry.toJson (e : FmecaEntry) : Json :=
  .obj [("itemFunction", .str e.itemFunction),
        ("failureMode", .str e.failureMode),
        ("failureCause", .str e.failureCause),
        ("localEffect", .str e.localEffect),
        ("systemEffect", .str e.systemEffect),
        ("endEffect", .str e.endEffect),
        ("severity", .num (toString e.severity)),
        ("occurrence", .num (toString e.occurrence)),
        ("detection", .num (toString e.detection)),
        ("rpn", .num (toString e.rpn)),
        ("recommendedAction", .str e.recommendedAction)]

/-- The mock FMECA summary as the JavaScript object it denotes. -/
def FmecaSummary.toJson (s : FmecaSummary) : Json :=
  .obj [("totalFailureModes", .num (toString s.totalFailureModes)),
        ("highRiskItems", .num (toString s.highRiskItems)),
        ("averageRPN", .num (toString s.averageRPN)),
        ("keyRecommendations", .arr (s.keyRecommendations.map Json.str))]

/-- The mock FMECA report as the JavaScript object it denotes. -/
def Fmeca.toJson (f : Fmeca) : Json :=
  .obj [("fmecaTable", .arr (f.fmecaTable.map FmecaEntry.toJson)),
        ("summary", f.summary.toJson)]

/-- `generateMockFMECA` from `src/services/aiService.js`, lines 280–336. -/
def generateMockFMECA (systemDescription : SystemDescription)
    (isStructured : Bool) : Fmeca :=
  let systemName :=
    if isStructured then systemDescription.systemName.getD "undefined"
    else "System"
  { fmecaTable := [
      { itemFunction := systemName ++ " - Primary Component"
        failureMode := "Complete failure"
        failureCause := "Component degradation, environmental stress"
        localEffect := "Loss of component function"
        systemEffect := "Reduced system capability"
        endEffect := "Potential safety hazard"
        severity := 8, occurrence := 3, detection := 4, rpn := 96
        recommendedAction := "Implement redundancy and monitoring" },
      { itemFunction := systemName ++ " - Control Unit"
        failureMode := "Intermittent operation"
        failureCause := "Software fault, electrical interference"
        localEffect := "Erratic control behavior"
        systemEffect := "System instability"
        endEffect := "Degraded performance"
        severity := 6, occurrence := 4, detection := 3, rpn := 72
        recommendedAction := "Improve software validation and EMI protection" },
      { itemFunction := systemName ++ " - Sensor"
        failureMode := "False readings"
        failureCause := "Calibration drift, contamination"
        localEffect := "Incorrect data output"
        systemEffect := "Poor decision making"
        endEffect := "System malfunction"
        severity := 7, occurrence := 5, detection := 2, rpn := 70
        recommendedAction := "Regular calibration and self-diagnostics" }]
    summary := {
      totalFailureModes := 3
      highRiskItems := 1
      averageRPN := 79
      keyRecommendations := [
        "Implement comprehensive monitoring system",
        "Add redundancy for critical components",
        "Establish regular maintenance schedule"] } }

/-! ## FTA report values and the canned fallback (`generateMockFTA`) -/

/-- One entry of the `events` list of an FTA report. -/
structure FtaEvent where
  id : String
  type : String
  description : String
  probability : String

/-- One entry of the `gates` list of an FTA report. -/
structure FtaGate where
  id : String
  type : String
  description : String

/-- The `analysis` object of an FTA report. -/
structure FtaAnalysisPart where
  criticalPath : String
  recommendations : List String

/-- An FTA report of the shape produced by `generateMockFTA`. -/
structure Fta where
  topEvent : String
  mermaidDiagram : String
  events : List FtaEvent
  gates : List FtaGate
  analysis : FtaAnalysisPart

/-- The mock FTA event as the JavaScript object it denotes. -/
def FtaEvent.toJson (e : FtaEvent) : Json :=
  .obj [("id", .str e.id), ("type", .str e.type),
        ("description", .str e.description), ("probability", .str e.probability)]

/-- The mock FTA gate as the JavaScript object it denotes. -/
def FtaGate.toJson (g : FtaGate) : Json :=
  .obj [("id", .str g.id), ("type", .str g.type), ("description", .str g.description)]

/-- The mock FTA analysis as the JavaScript object it denotes. -/
def FtaAnalysisPart.toJson (a : FtaAnalysisPart) : Json :=
  .obj [("criticalPath", .str a.criticalPath),
        ("recommendations", .arr (a.recommendations.map Json.str))]

/-- The mock FTA report as the JavaScript object it denotes. -/
def Fta.toJson (f : Fta) : Json :=
  .obj [("topEvent", .str f.topEvent),
        ("mermaidDiagram", .str f.mermaidDiagram),
        ("events", .arr (f.events.map FtaEvent.toJson)),
        ("gates", .arr (f.gates.map FtaGate.toJson)),
        ("analysis", f.analysis.toJson)]

/-- `generateMockFTA` from `src/services/aiService.js`, lines 341–424. -/
def generateMockFTA (systemDescription : SystemDescription)
    (isStructured : Bool) : Fta :=
  let systemName :=
    if isStructured then systemDescription.systemName.getD "undefined"
    else "System"
  { topEvent := systemName ++ " fails to perform critical function"
    mermaidDiagram :=
      "flowchart TD\n    A([" ++ systemName ++
      " Critical Failure])\n    G1\x7bOR\x7d\n    A --> G1\n    G1 --> B([Hardware Subsystem Failure])\n    G1 --> C([Software Subsystem Failure])\n    G2\x7bAND\x7d\n    B --> G2\n    G2 --> D([Primary Component Failure])\n    G2 --> E([Backup Component Failure])\n    G3\x7bOR\x7d\n    C --> G3\n    G3 --> F([Logic Error])\n    G3 --> G([Data Corruption])\n    G4\x7bAND\x7d\n    D --> G4\n    G4 --> H([Mechanical Wear])\n    G4 --> I([Environmental Stress])\n    \n    %% Professional FTA Styling\n    classDef gate fill:#2c3e50,stroke:#34495e,stroke-width:3px,color:#ffffff,font-weight:700;\n    classDef event fill:#ecf0f1,stroke:#2c3e50,stroke-width:2px,color:#2c3e50,font-weight:600;\n    classDef top fill:#e74c3c,stroke:#c0392b,stroke-width:3px,color:#ffffff,font-weight:700;\n    classDef intermediate fill:#3498db,stroke:#2980b9,stroke-width:2px,color:#ffffff,font-weight:600;\n    classDef basic fill:#f39c12,stroke:#e67e22,stroke-width:2px,color:#ffffff,font-weight:600;\n    \n    class G1,G2,G3,G4 gate;\n    class B,C intermediate;\n    class D,E,F,G basic;\n    class H,I basic;\n    class A top;"
    events := [
      { id := "A", type := "top"
        description := systemName ++ " critical failure"
        probability := "1E-6 per hour" },
      { id := "B", type := "intermediate"
        description := "Hardware subsystem failure"
        probability := "5E-5 per hour" },
      { id := "C", type := "intermediate"
        description := "Software subsystem failure"
        probability := "2E-5 per hour" },
      { id := "D", type := "basic"
        description := "Primary component failure"
        probability := "1E-4 per hour" }]
    gates := [
      { id := "G1", type := "OR"
        description := "Either hardware or software failure causes system failure" },
      { id := "G2", type := "AND"
        description := "Both components must fail for hardware failure" }]
    analysis := {
      criticalPath := "Hardware failure through component degradation"
      recommendations := [
        "Implement hardware redundancy",
        "Add comprehensive diagnostics",
        "Establish preventive maintenance program"] } }

/-! ## System structures and the canned templates -/

/-- One entry of the `components` list of a system structure. -/
structure StructComponent where
  name : String
  function : String

/-- One entry of the `connections` list (JSON keys `from` / `to` / `type`;
`from` is a Lean keyword, hence the field names). -/
structure StructConnection where
  fromComponent : String
  toComponent : String
  type : String

/-- One entry of the `safetyStandards` list of a system structure. -/
structure SafetyStandardEntry where
  standard : String
  requirement : String

/-- A system structure of the shape produced by the canned templates. -/
structure SystemStructure where
  components : List StructComponent
  connections : List StructConnection
  safetyStandards : List SafetyStandardEntry

/-- The component as the JavaScript object it denotes. -/
def StructComponent.toJson (c : StructComponent) : Json :=
  .obj [("name", .str c.name), ("function", .str c.function)]

/-- The connection as the JavaScript object it denotes. -/
def StructConnection.toJson (c : StructConnection) : Json :=
  .obj [("from", .str c.fromComponent), ("to", .str c.toComponent),
        ("type", .str c.type)]

/-- The safety standard as the JavaScript object it denotes. -/
def SafetyStandardEntry.toJson (s : SafetyStandardEntry) : Json :=
  .obj [("standard", .str s.standard), ("requirement", .str s.requirement)]

/-- The system structure as the JavaScript object it denotes. -/
def SystemStructure.toJson (s : SystemStructure) : Json :=
  .obj [("components", .arr (s.components.map StructComponent.toJson)),
        ("connections", .arr (s.connections.map StructConnection.toJson)),
        ("safetyStandards", .arr (s.safetyStandards.map SafetyStandardEntry.toJson))]

/-- The `automotive` template of `mockStructures` (aiService.js 533–552). -/
def mockStructuresAutomotive : SystemStructure :=
  { components := [
      { name := "Electronic Control Unit", function := "Controls overall system operation and decision making" },
      { name := "Sensor Array", function := "Collects environmental and operational data" },
      { name := "Actuator System", function := "Executes control commands and physical actions" },
      { name := "Communication Interface", function := "Handles data exchange with other vehicle systems" },
      { name := "Power Management Unit", function := "Manages electrical power distribution and conditioning" }]
    connections := [
      { fromComponent := "Sensor Array", toComponent := "Electronic Control Unit", type := "Data signals" },
      { fromComponent := "Electronic Control Unit", toComponent := "Actuator System", type := "Control signals" },
      { fromComponent := "Power Management Unit", toComponent := "Electronic Control Unit", type := "Electrical power" },
      { fromComponent := "Electronic Control Unit", toComponent := "Communication Interface", type := "Data bus" }]
    safetyStandards := [
      { standard := "ISO 26262", requirement := "Functional safety for automotive systems" },
      { standard := "ISO 21448", requirement := "Safety of the intended functionality (SOTIF)" },
      { standard := "IEC 61508", requirement := "Functional safety of electrical systems" }] }

/-- The `aerospace` template of `mockStructures` (aiService.js 553–572). -/
def mockStructuresAerospace : SystemStructure :=
  { components := [
      { name := "Flight Control Computer", function := "Primary flight control processing and decision making" },
      { name := "Navigation Sensors", function := "Provides position, attitude, and velocity information" },
      { name := "Communication System", function := "Handles air traffic control and data link communications" },
      { name := "Display System", function := "Presents flight information to pilots" },
      { name := "Backup Systems", function := "Provides redundant functionality for critical operations" }]
    connections := [
      { fromComponent := "Navigation Sensors", toComponent := "Flight Control Computer", type := "Sensor data" },
      { fromComponent := "Flight Control Computer", toComponent := "Display System", type := "Display data" },
      { fromComponent := "Communication System", toComponent := "Flight Control Computer", type := "Communication data" },
      { fromComponent := "Backup Systems", toComponent := "Flight Control Computer", type := "Redundant control" }]
    safetyStandards := [
      { standard := "DO-178C", requirement := "Software considerations in airborne systems" },
      { standard := "DO-254", requirement := "Design assurance guidance for airborne electronic hardware" },
      { standard := "ARP4754A", requirement := "Guidelines for development of civil aircraft systems" }] }

/-- The `industrial` template of `mockStructures` (aiService.js 573–592). -/
def mockStructuresIndustrial : SystemStructure :=
  { components := [
      { name := "Process Controller", function := "Controls industrial process parameters and sequences" },
      { name := "Monitoring Sensors", function := "Monitors process conditions and equipment status" },
      { name := "Safety Interlock System", function := "Provides emergency shutdown and safety protection" },
      { name := "Human Machine Interface", function := "Allows operator interaction and monitoring" },
      { name := "Data Logging System", function := "Records process data for analysis and compliance" }]
    connections := [
      { fromComponent := "Monitoring Sensors", toComponent := "Process Controller", type := "Process data" },
      { fromComponent := "Process Controller", toComponent := "Safety Interlock System", type := "Safety signals" },
      { fromComponent := "Process Controller", toComponent := "Human Machine Interface", type := "Status information" },
      { fromComponent := "Process Controller", toComponent := "Data Logging System", type := "Historical data" }]
    safetyStandards := [
      { standard := "IEC 61508", requirement := "Functional safety of electrical/electronic systems" },
      { standard := "IEC 61511", requirement := "Functional safety - Safety instrumented systems" },
      { standard := "ISO 13849", requirement := "Safety of machinery - Safety-related parts of control systems" }] }

/-- The `medical` template of `mockStructures` (aiService.js 593–612). -/
def mockStructuresMedical : SystemStructure :=
  { components := [
      { name := "Patient Monitoring Unit", function := "Continuously monitors patient vital signs and parameters" },
      { name := "Alarm System", function := "Alerts medical staff to critical patient conditions" },
      { name := "Data Recording System", function := "Stores patient data for medical records and analysis" },
      { name := "Communication Interface", function := "Interfaces with hospital information systems" },
      { name := "Power Backup System", function := "Ensures continuous operation during power failures" }]
    connections := [
      { fromComponent := "Patient Monitoring Unit", toComponent := "Alarm System", type := "Alert signals" },
      { fromComponent := "Patient Monitoring Unit", toComponent := "Data Recording System", type := "Patient data" },
      { fromComponent := "Data Recording System", toComponent := "Communication Interface", type := "Medical records" },
      { fromComponent := "Power Backup System", toComponent := "Patient Monitoring Unit", type := "Backup power" }]
    safetyStandards := [
      { standard := "IEC 60601", requirement := "Medical electrical equipment safety requirements" },
      { standard := "ISO 14971", requirement := "Medical devices - Application of risk management" },
      { standard := "IEC 62304", requirement := "Medical device software - Software life cycle processes" }] }

/-- Lookup in the `mockStructures` object literal by system-type key. -/
def mockStructures (key : String) : Option SystemStructure :=
  if key = "automotive" then some mockStructuresAutomotive
  else if key = "aerospace" then some mockStructuresAerospace
  else if key = "industrial" then some mockStructuresIndustrial
  else if key = "medical" then some mockStructuresMedical
  else none

/-- `determineSystemType` from `src/services/aiService.js`, lines 621–633:
case-insensitive substring tests on `systemName + ' ' + description`,
aerospace keywords first, then automotive, then medical, default
`industrial`. -/
def determineSystemType (systemName description : String) : String :=
  let text := jsToLower (systemName ++ " " ++ description)
  if strIncludes text "aircraft" || strIncludes text "aviation" ||
     strIncludes text "flight" || strIncludes text "aerospace" then "aerospace"
  else if strIncludes text "automotive" || strIncludes text "vehicle" ||
     strIncludes text "car" || strIncludes text "brake" then "automotive"
  else if strIncludes text "patient" || strIncludes text "medical" ||
     strIncludes text "hospital" || strIncludes text "health" then "medical"
  else "industrial"

/-- `generateMockSystemStructure` (aiService.js 528–616):
`mockStructures[systemType] || mockStructures.industrial`. -/
def generateMockSystemStructure (systemName description : String) :
    SystemStructure :=
  let systemType := determineSystemType systemName description
  (mockStructures systemType).getD mockStructuresIndustrial

/-! ## Prompt construction (`systemInfo` and the prompt template literals) -/

/-- The `Safety Standards:` text of the structured FMECA `systemInfo`:
`systemDescription.safetyStandards?.join(', ') || 'General Safety
Principles'` (an absent list, or a join that is the empty string, falls
back to the default). -/
def safetyStandardsText (safetyStandards : Option (List String)) : String :=
  match safetyStandards with
  | none => "General Safety Principles"
  | some xs =>
    let j := joinSep ", " xs
    if j = "" then "General Safety Principles" else j

/-- The text a component contributes to `systemInfo`:
``` `${c.name}: ${c.function}` ```. -/
def componentText (c : Component) : String := c.name ++ ": " ++ c.function

/-- The `systemInfo` block of the FMECA prompt (aiService.js 18–23). -/
def fmecaSystemInfo (systemDescription : SystemDescription)
    (isStructured : Bool) : String :=
  if isStructured then
    "System: " ++ systemDescription.systemName.getD "undefined" ++
    "\nDescription: " ++ systemDescription.description ++
    "\nComponents: " ++
      joinSep ", " (systemDescription.components.map componentText) ++
    "\nSafety Standards: " ++
      safetyStandardsText systemDescription.safetyStandards
  else
    "System Description: " ++ systemDescription.description

/-- The `systemInfo` block of the FTA prompt (aiService.js 136–140). -/
def ftaSystemInfo (systemDescription : SystemDescription)
    (isStructured : Bool) : String :=
  if isStructured then
    "System: " ++ systemDescription.systemName.getD "undefined" ++
    "\nDescription: " ++ systemDescription.description ++
    "\nComponents: " ++
      joinSep ", " (systemDescription.components.map componentText)
  else
    "System Description: " ++ systemDescription.description

/-- Text of the FMECA prompt before `${systemInfo}` (aiService.js 25–27). -/
def fmecaPromptPrefix : String :=
  "You are a senior safety engineer with expertise in FMECA (Failure Mode, Effects, and Criticality Analysis). Analyze the following system and generate a comprehensive FMECA.\n\n"

/-- Text of the FMECA prompt after `${systemInfo}` (aiService.js 27–73). -/
def fmecaPromptSuffix : String :=
  "\n\nGenerate a detailed FMECA analysis with the following requirements:\n\n1. Identify 5-8 critical failure modes across the system components\n2. For each failure mode, provide:\n   - Component/Function name\n   - Specific failure mode\n   - Root cause(s)\n   - Local effects (component level)\n   - System-level effects\n   - End effects (system/mission level)\n   - Severity rating (1-10, where 10 is catastrophic)\n   - Occurrence probability (1-10, where 10 is very frequent)\n   - Detection rating (1-10, where 10 is cannot detect)\n   - Risk Priority Number (RPN = Severity × Occurrence × Detection)\n   - Recommended actions/mitigations\n\n3. Consider relevant safety standards and best practices\n4. Focus on safety-critical failure modes that could lead to hazardous conditions\n\nReturn the response as a valid JSON object with this exact structure:\n\x7b\n  \"fmecaTable\": [\n    \x7b\n      \"itemFunction\": \"Component/Function Name\",\n      \"failureMode\": \"Specific failure mode\",\n      \"failureCause\": \"Root cause(s)\",\n      \"localEffect\": \"Component-level effect\",\n      \"systemEffect\": \"System-level effect\", \n      \"endEffect\": \"Mission/safety-level effect\",\n      \"severity\": 9,\n      \"occurrence\": 3,\n      \"detection\": 4,\n      \"rpn\": 108,\n      \"recommendedAction\": \"Specific mitigation strategy\"\n    \x7d\n  ],\n  \"summary\": \x7b\n    \"totalFailureModes\": 6,\n    \"highRiskItems\": 3,\n    \"averageRPN\": 85,\n    \"keyRecommendations\": [\"Priority recommendation 1\", \"Priority recommendation 2\"]\n  \x7d\n\x7d\n\nEnsure all numeric ratings follow standard FMECA scales and the analysis is thorough and professional."

/-- The FMECA prompt rendered by `generateFMECA` (pure in its inputs). -/
def fmecaPrompt (systemDescription : SystemDescription)
    (isStructured : Bool) : String :=
  fmecaPromptPrefix ++ fmecaSystemInfo systemDescription isStructured ++
    fmecaPromptSuffix

/-- Text of the FTA prompt before `${systemInfo}` (aiService.js 142–144). -/
def ftaPromptPrefix : String :=
  "You are a senior safety engineer expert in Fault Tree Analysis (FTA). Create a comprehensive fault tree for the most critical hazard of the following system:\n\n"

/-- Text of the FTA prompt after `${systemInfo}` (aiService.js 144–191). -/
def ftaPromptSuffix : String :=
  "\n\nGenerate an FTA with these requirements:\n\n1. Identify the most critical top-level hazard/undesired event\n2. Create a logical fault tree with:\n   - Top event (the critical hazard)\n   - Intermediate events (system-level failures)\n   - Basic events (component-level failures)\n   - Appropriate logic gates (AND, OR)\n   - 3-4 levels of decomposition\n\n3. Use proper FTA symbology and ensure logical consistency\n4. Focus on the most safety-critical failure path\n5. Use clear \"AND\" and \"OR\" labels in gates for readability\n\nReturn the response as a valid JSON object with this structure:\n\x7b\n  \"topEvent\": \"Description of the critical hazard\",\n  \"mermaidDiagram\": \"flowchart TD\\n    A([Top Event])\\n    G1\x7bOR\x7d\\n    A --> G1\\n    G1 --> B([Intermediate Event 1])\\n    G1 --> C([Intermediate Event 2])\\n    ...\",\n  \"events\": [\n    \x7b\n      \"id\": \"A\",\n      \"type\": \"top\",\n      \"description\": \"Critical system hazard\",\n      \"probability\": \"1E-6 per hour\"\n    \x7d,\n    \x7b\n      \"id\": \"B\", \n      \"type\": \"intermediate\",\n      \"description\": \"System failure mode\",\n      \"probability\": \"5E-5 per hour\"\n    \x7d\n  ],\n  \"gates\": [\n    \x7b\n      \"id\": \"G1\",\n      \"type\": \"OR\",\n      \"description\": \"Either failure path can cause top event\"\n    \x7d\n  ],\n  \"analysis\": \x7b\n    \"criticalPath\": \"Most likely failure sequence\",\n    \"recommendations\": [\"Key mitigation 1\", \"Key mitigation 2\"]\n  \x7d\n\x7d\n\nEnsure the Mermaid diagram uses proper syntax with appropriate styling for FTA elements."

/-- The FTA prompt rendered by `generateFTA` (pure in its inputs). -/
def ftaPrompt (systemDescription : SystemDescription)
    (isStructured : Bool) : String :=
  ftaPromptPrefix ++ ftaSystemInfo systemDescription isStructured ++
    ftaPromptSuffix

/-! ## The pipelines -/

/-- The error record inspected by the `catch` blocks (`error.code`,
`error.status`); absent fields are `none`. -/
structure ApiError where
  code : Option String := none
  status : Option Nat := none

/-- Result of the chat-completion call: the raw reply text, or the caught
error.  This is the only external effect of the pipelines; everything else
is a pure function of it. -/
inductive CallOutcome where
  | success (responseText : String) : CallOutcome
  | failure (error : ApiError) : CallOutcome

/-- Message thrown when `error.code === 'insufficient_quota'`. -/
def quotaMessage : String :=
  "OpenAI API quota exceeded. Please check your API usage and billing."

/-- Message thrown when `error.code === 'invalid_api_key'`. -/
def invalidKeyMessage : String :=
  "Invalid OpenAI API key. Please check your configuration."

/-- Message thrown when `error.status === 429`. -/
def rateLimitMessage : String :=
  "OpenAI API rate limit exceeded. Please try again later."

/-- `parseFMECAFallback` (aiService.js 264–267): ignores the reply text and
returns `generateMockFMECA({ description: "System analysis" }, false)`. -/
def parseFMECAFallback (_responseText : String) : Fmeca :=
  generateMockFMECA { description := "System analysis" } false

/-- `parseFTAFallback` (aiService.js 272–275). -/
def parseFTAFallback (_responseText : String) : Fta :=
  generateMockFTA { description := "System analysis" } false

/-- The styling block appended to `mermaidDiagram` by `generateFTA`
(aiService.js 221–233), byte-for-byte. -/
def ftaStyling : String :=
  "\n    \n    %% Professional FTA Styling\n    classDef gate fill:#2c3e50,stroke:#34495e,stroke-width:3px,color:#ffffff,font-weight:700;\n    classDef event fill:#ecf0f1,stroke:#2c3e50,stroke-width:2px,color:#2c3e50,font-weight:600;\n    classDef top fill:#e74c3c,stroke:#c0392b,stroke-width:3px,color:#ffffff,font-weight:700;\n    classDef intermediate fill:#3498db,stroke:#2980b9,stroke-width:2px,color:#ffffff,font-weight:600;\n    classDef basic fill:#f39c12,stroke:#e67e22,stroke-width:2px,color:#ffffff,font-weight:600;\n    \n    class G1,G2,G3,G4,G5,G6 gate;\n    class B,C,D,E,F,G,H,I,J,K intermediate;\n    class L,M,N,O,P,Q,R,S,T,U basic;\n    class A top;"

/-- The inner `try { … JSON.parse … } catch (parseError)` of `generateFMECA`
(aiService.js 95–104): extract the brace span, parse it, and on a parse
error substitute `parseFMECAFallback(responseText)`.  A successfully parsed
value is returned as-is, whatever its shape. -/
def processFMECAResponse (responseText : String) : Json :=
  match Json.parse (extractCandidate responseText) with
  | some fmecaData => fmecaData
  | none => (parseFMECAFallback responseText).toJson

/-- The inner `try { … } catch (parseError)` of `generateFTA`
(aiService.js 213–239): extract and parse, then evaluate
`if (ftaData.mermaidDiagram) { ftaData.mermaidDiagram += styling }`.
The property read throws on a parsed `null`, which the same `catch`
converts to the fallback; a falsy diagram field leaves the value
untouched. -/
def processFTAResponse (responseText : String) : Json :=
  match Json.parse (extractCandidate responseText) with
  | none => (parseFTAFallback responseText).toJson
  | some ftaData =>
    match getProp ftaData "mermaidDiagram" with
    | .error _ => (parseFTAFallback responseText).toJson
    | .ok v =>
      if jsTruthy v then
        setProp ftaData "mermaidDiagram" (.str (jsToString v ++ ftaStyling))
      else ftaData

/-- `generateFMECA` (aiService.js 14–124) as a function of the completion
outcome: `Except.error` models a thrown `Error`, `Except.ok` a resolved
value. -/
def generateFMECA (systemDescription : SystemDescription)
    (isStructured : Bool) (outcome : CallOutcome) : Except String Json :=
  match outcome with
  | .success responseText => .ok (processFMECAResponse responseText)
  | .failure error =>
    if error.code = some "insufficient_quota" then .error quotaMessage
    else if error.code = some "invalid_api_key" then .error invalidKeyMessage
    else if error.status = some 429 then .error rateLimitMessage
    else .ok (generateMockFMECA systemDescription isStructured).toJson

/-- `generateFTA` (aiService.js 132–259) as a function of the completion
outcome. -/
def generateFTA (systemDescription : SystemDescription)
    (isStructured : Bool) (outcome : CallOutcome) : Except String Json :=
  match outcome with
  | .success responseText => .ok (processFTAResponse responseText)
  | .failure error =>
    if error.code = some "insufficient_quota" then .error quotaMessage
    else if error.code = some "invalid_api_key" then .error invalidKeyMessage
    else if error.status = some 429 then .error rateLimitMessage
    else .ok (generateMockFTA systemDescription isStructured).toJson

/-- The validation of `generateSystemStructure` (aiService.js 499–507):
each of `components`, `connections`, `safetyStandards` must be truthy and
`Array.isArray`; a property read that throws (parsed `null`) fails too. -/
def validStructure (structureData : Json) : Bool :=
  match getProp structureData "components",
        getProp structureData "connections",
        getProp structureData "safetyStandards" with
  | .ok c, .ok n, .ok s =>
    (match c with | .arr _ => true | _ => false) &&
    (match n with | .arr _ => true | _ => false) &&
    (match s with | .arr _ => true | _ => false)
  | _, _, _ => false

/-- `generateSystemStructure` (aiService.js 429–523) as a function of the
completion outcome: it parses the trimmed reply directly (no brace-span
extraction), validates the three lists, and on any parse/validation failure
or any call error falls back to `generateMockSystemStructure` — it never
throws to its caller. -/
def generateSystemStructure (systemName description : String)
    (outcome : CallOutcome) : Json :=
  match outcome with
  | .failure _ =>
    (generateMockSystemStructure systemName description).toJson
  | .success responseText =>
    match Json.parse (jsTrim responseText) with
    | none => (generateMockSystemStructure systemName description).toJson
    | some structureData =>
      if validStructure structureData then structureData
      else (generateMockSystemStructure systemName description).toJson

/-- The combined `/api/analysis/generate` route body:
`Promise.all([generateFMECA(...), generateFTA(...)])` over the two
(settled) call outcomes.  `Except.error` models the rejected combined
promise handed to `next(error)`; when only one generation rejects, the
combined promise rejects with that error. -/
def combinedGenerate (validatedInput : SystemDescription)
    (isStructured : Bool) (fmecaOutcome ftaOutcome : CallOutcome) :
    Except String (Json × Json) :=
  match generateFMECA validatedInput isStructured fmecaOutcome,
        generateFTA validatedInput isStructured ftaOutcome with
  | .error m, _ => .error m
  | .ok _, .error m => .error m
  | .ok a, .ok b => .ok (a, b)

/-! ## Shared lemmas -/

/-- Right cancellation for string concatenation. -/
theorem string_append_right_cancel {a b c : String} (h : a ++ c = b ++ c) :
    a = b := by
  have h2 := congrArg String.data h
  simp only [String.data_append] at h2
  exact String.ext (List.append_cancel_right h2)

/-- The strings of `parts` occur in `s`, disjointly, in the given order. -/
def containsInOrder : String → List String → Prop
  | _, [] => True
  | s, p :: ps => ∃ x y, s = x ++ p ++ y ∧ containsInOrder y ps

/-- A comma-joined component list, wrapped in any prefix and suffix text,
contains every component's name and function verbatim and in order. -/
theorem containsInOrder_join (l : List Component) (a b : String) :
    containsInOrder (a ++ joinSep ", " (l.map componentText) ++ b)
      (l.flatMap fun c => [c.name, c.function]) := by
  induction l generalizing a with
  | nil => simp [containsInOrder]
  | cons c rest ih =>
    cases rest with
    | nil =>
      refine ⟨a, ": " ++ c.function ++ b, ?_, ": ", b, ?_, trivial⟩
      · simp [joinSep, componentText, String.append_assoc]
      · simp [String.append_assoc]
    | cons d ds =>
      refine ⟨a, ": " ++ c.function ++ ", " ++
        joinSep ", " ((d :: ds).map componentText) ++ b, ?_,
        ": ", ", " ++ joinSep ", " ((d :: ds).map componentText) ++ b, ?_, ?_⟩
      · simp [joinSep, componentText, String.append_assoc]
      · simp [String.append_assoc]
      · exact ih (", ")

/-- A sought character that avoids the first list is found at an offset
shifted by that list's length. -/
theorem firstIdx_append_not_mem (c : Char) (a b : List Char)
    (ha : ∀ x ∈ a, x ≠ c) :
    firstIdx c (a ++ b) = (firstIdx c b).map (· + a.length) := by
  induction a with
  | nil =>
    simp only [List.nil_append, List.length_nil]
    cases firstIdx c b <;> simp
  | cons x xs ih =>
    have hx : ¬ x = c := ha x (List.mem_cons_self x xs)
    rw [List.cons_append, firstIdx, if_neg hx,
      ih (fun y hy => ha y (List.mem_cons_of_mem x hy))]
    cases firstIdx c b <;> simp <;> omega

/-- The sought character at the head is found at index 0. -/
theorem firstIdx_cons_self (c : Char) (l : List Char) :
    firstIdx c (c :: l) = some 0 := by
  simp [firstIdx]

/-- A prefix of `b` is a prefix of `b ++ c`. -/
theorem isPrefixOf_append {a b c : List Char}
    (h : List.isPrefixOf a b = true) : List.isPrefixOf a (b ++ c) = true := by
  induction a generalizing b with
  | nil => simp [List.isPrefixOf]
  | cons x xs ih =>
    cases b with
    | nil => simp [List.isPrefixOf] at h
    | cons y ys =>
      simp only [List.isPrefixOf, Bool.and_eq_true, beq_iff_eq] at h
      simp only [List.cons_append, List.isPrefixOf, Bool.and_eq_true, beq_iff_eq]
      exact ⟨h.1, ih h.2⟩

/-- A needle that is a prefix of the haystack occurs in it. -/
theorem occursIn_of_isPrefixOf {needle hay : List Char}
    (h : needle.isPrefixOf hay = true) : occursIn needle hay = true := by
  simp only [occursIn, List.any_eq_true]
  exact ⟨0, by simp, by simpa using h⟩

/-- `String.prototype.toLowerCase` distributes over concatenation. -/
theorem jsToLower_append (s t : String) :
    jsToLower (s ++ t) = jsToLower s ++ jsToLower t := by
  apply String.ext
  simp [jsToLower, String.data_append]

/-- The brace-span extraction selects exactly an embedded block that starts
with `{` and ends with `}` when the surrounding text has no interfering
braces. -/
theorem extractCandidate_embedded (pre mid post : String)
    (hpre : ∀ x ∈ pre.data, x ≠ '{')
    (hpost : ∀ x ∈ post.data, x ≠ '}')
    (hhead : mid.data.head? = some '{')
    (hlast : mid.data.getLast? = some '}') :
    extractCandidate (pre ++ mid ++ post) = mid := by
  obtain ⟨mtail, hmid⟩ : ∃ t, mid.data = '{' :: t := by
    cases hm : mid.data with
    | nil => rw [hm] at hhead; exact absurd hhead (by simp)
    | cons y t =>
      rw [hm] at hhead
      simp only [List.head?_cons, Option.some.injEq] at hhead
      exact ⟨t, by rw [hhead]⟩
  obtain ⟨rtail, hrev⟩ : ∃ t, mid.data.reverse = '}' :: t := by
    cases hm : mid.data.reverse with
    | nil =>
      have : mid.data = [] := by
        have := congrArg List.reverse hm
        simpa using this
      rw [this] at hhead; exact absurd hhead (by simp)
    | cons y t =>
      have : mid.data.reverse.head? = some '}' := by
        rw [List.head?_reverse]; exact hlast
      rw [hm] at this
      simp only [List.head?_cons, Option.some.injEq] at this
      exact ⟨t, by rw [this]⟩
  have hdata : (pre ++ mid ++ post).data = pre.data ++ mid.data ++ post.data := by
    simp [String.data_append]
  have hmlen : 2 ≤ mid.data.length := by
    rcases mtail with - | ⟨z, zs⟩
    · have h1 : mid.data.reverse = ['{'] := by simp [hmid]
      rw [h1] at hrev
      exact absurd (congrArg (List.head?) hrev) (by simp)
    · rw [hmid]; simp
  have hfirst : firstIdx '{' (pre ++ mid ++ post).data = some pre.data.length := by
    rw [hdata, List.append_assoc, firstIdx_append_not_mem '{' pre.data _ hpre, hmid,
      List.cons_append, firstIdx_cons_self]
    simp
  have h1 : firstIdx '}' (pre ++ mid ++ post).data.reverse =
      some post.data.length := by
    rw [hdata]
    have hrevall : (pre.data ++ mid.data ++ post.data).reverse =
        post.data.reverse ++ (mid.data.reverse ++ pre.data.reverse) := by
      simp [List.reverse_append, List.append_assoc]
    rw [hrevall, firstIdx_append_not_mem '}' post.data.reverse _
      (fun y hy => hpost y (List.mem_reverse.mp hy)), hrev, List.cons_append,
      firstIdx_cons_self]
    simp
  have hlastIdx : lastIdx '}' (pre ++ mid ++ post).data =
      some (pre.data.length + mid.data.length - 1) := by
    simp only [lastIdx, h1]
    rw [hdata]
    simp only [List.length_append]
    congr 1
    omega
  have hlt : pre.data.length < pre.data.length + mid.data.length - 1 := by omega
  simp only [extractCandidate, hfirst, hlastIdx, if_pos hlt]
  have harith : pre.data.length + mid.data.length - 1 - pre.data.length + 1 =
      mid.data.length := by omega
  apply String.ext
  show ((pre ++ mid ++ post).data.drop pre.data.length).take
      (pre.data.length + mid.data.length - 1 - pre.data.length + 1) = mid.data
  rw [harith, hdata, List.append_assoc, List.drop_left, List.take_left]

/-! ## The claims -/

/-- Claim C1: for `generateFMECA` and `generateFTA`, a caught completion
failure is surfaced to the caller exactly when it is one of the three named
kinds — quota exhausted (`error.code === 'insufficient_quota'`), invalid
credential (`error.code === 'invalid_api_key'`), or rate limited
(`error.status === 429`) — each with a distinct message; every other caught
failure (and every parse failure on the success path) yields the canned
mock payload as a normal success result, never a thrown error. -/
theorem generate_surfaces_exactly_named_errors
    (systemDescription : SystemDescription) (isStructured : Bool) (e : ApiError) :
    ((∃ m, generateFMECA systemDescription isStructured (.failure e) = .error m) ↔
      (e.code = some "insufficient_quota" ∨ e.code = some "invalid_api_key" ∨
        e.status = some 429)) ∧
    ((∃ m, generateFTA systemDescription isStructured (.failure e) = .error m) ↔
      (e.code = some "insufficient_quota" ∨ e.code = some "invalid_api_key" ∨
        e.status = some 429)) ∧
    (e.code = some "insufficient_quota" →
      generateFMECA systemDescription isStructured (.failure e) = .error quotaMessage ∧
      generateFTA systemDescription isStructured (.failure e) = .error quotaMessage) ∧
    (e.code ≠ some "insufficient_quota" → e.code = some "invalid_api_key" →
      generateFMECA systemDescription isStructured (.failure e) = .error invalidKeyMessage ∧
      generateFTA systemDescription isStructured (.failure e) = .error invalidKeyMessage) ∧
    (e.code ≠ some "insufficient_quota" → e.code ≠ some "invalid_api_key" →
      e.status = some 429 →
      generateFMECA systemDescription isStructured (.failure e) = .error rateLimitMessage ∧
      generateFTA systemDescription isStructured (.failure e) = .error rateLimitMessage) ∧
    (¬(e.code = some "insufficient_quota" ∨ e.code = some "invalid_api_key" ∨
        e.status = some 429) →
      generateFMECA systemDescription isStructured (.failure e) =
        .ok (generateMockFMECA systemDescription isStructured).toJson ∧
      generateFTA systemDescription isStructured (.failure e) =
        .ok (generateMockFTA systemDescription isStructured).toJson) ∧
    (∀ responseText, (∃ j, generateFMECA systemDescription isStructured
        (.success responseText) = .ok j) ∧
      (∃ j, generateFTA systemDescription isStructured (.success responseText) = .ok j)) ∧
    (quotaMessage ≠ invalidKeyMessage ∧ quotaMessage ≠ rateLimitMessage ∧
      invalidKeyMessage ≠ rateLimitMessage) := by
  by_cases h1 : e.code = some "insufficient_quota" <;>
    by_cases h2 : e.code = some "invalid_api_key" <;>
    by_cases h3 : e.status = some 429 <;>
    simp_all [generateFMECA, generateFTA] <;>
    exact ⟨by decide, by decide, by decide⟩

/-- Witness for C1: the quota error surfaces the quota message, a 429
status surfaces the rate-limit message, and an unclassified failure yields
the canned mock payload. -/
theorem generate_surfaces_exactly_named_errors_witness :
    generateFMECA { description := "d" } false
      (.failure { code := some "insufficient_quota" }) = .error quotaMessage ∧
    generateFTA { description := "d" } false
      (.failure { status := some 429 }) = .error rateLimitMessage ∧
    generateFMECA { description := "d" } false (.failure {}) =
      .ok (generateMockFMECA { description := "d" } false).toJson := by
  obtain ⟨-, -, hq, -, -, -, -, -⟩ :=
    generate_surfaces_exactly_named_errors { description := "d" } false
      { code := some "insufficient_quota" }
  obtain ⟨-, -, -, -, hr, -, -, -⟩ :=
    generate_surfaces_exactly_named_errors { description := "d" } false
      { status := some 429 }
  obtain ⟨-, -, -, -, -, hm, -, -⟩ :=
    generate_surfaces_exactly_named_errors { description := "d" } false {}
  refine ⟨(hq rfl).1, (hr (by decide) (by decide) rfl).2, (hm (by decide)).1⟩

/-- Claim C2 counterexample: the raw reply `"null"` parses successfully to
the non-object value `null`, and `generateFMECA`'s extraction step returns
that `null` as-is — not the canned fallback object — refuting both
"returns the canned fallback object" and "never returns null" for a reply
that cannot be parsed into a JSON *object*. -/
theorem extractor_nonobject_counterexample :
    Json.parse (extractCandidate "null") = some Json.null ∧
    processFMECAResponse "null" = Json.null ∧
    Json.null ≠ (parseFMECAFallback "null").toJson := by
  refine ⟨rfl, rfl, fun h => Json.noConfusion h⟩

/-- Claim C2 (amended): for every raw reply whose extracted candidate fails
JSON parsing (the parse throws), the extraction step of `generateFMECA` and
`generateFTA` returns the canned fallback object for its report kind, never
throws past that point, and never returns null; a reply that parses
successfully is returned as-is, even when the parsed value is not an
object. -/
theorem extractor_parse_failure_fallback (responseText : String)
    (h : Json.parse (extractCandidate responseText) = none) :
    processFMECAResponse responseText = (parseFMECAFallback responseText).toJson ∧
    processFTAResponse responseText = (parseFTAFallback responseText).toJson ∧
    processFMECAResponse responseText ≠ Json.null ∧
    processFTAResponse responseText ≠ Json.null := by
  refine ⟨by simp [processFMECAResponse, h], by simp [processFTAResponse, h], ?_, ?_⟩
  · simp only [processFMECAResponse, h]
    exact fun hc => Json.noConfusion hc
  · simp only [processFTAResponse, h]
    exact fun hc => Json.noConfusion hc

/-- Witness for the amended C2: `"not json at all"` is unparseable and both
pipelines substitute their canned fallback. -/
theorem extractor_parse_failure_fallback_witness :
    Json.parse (extractCandidate "not json at all") = none ∧
    processFMECAResponse "not json at all" =
      (parseFMECAFallback "not json at all").toJson ∧
    processFTAResponse "not json at all" =
      (parseFTAFallback "not json at all").toJson := by
  have h : Json.parse (extractCandidate "not json at all") = none := by rfl
  obtain ⟨h1, h2, -, -⟩ := extractor_parse_failure_fallback "not json at all" h
  exact ⟨h, h1, h2⟩

/-- Claim C3 counterexample: the reply `x{y {"a": 1}` contains exactly one
JSON object embedded in surrounding non-JSON text, yet the greedy span
starts at the stray `{` of the surrounding text (index 1), the candidate
`{y {"a": 1}` fails to parse, and the extraction step returns the canned
fallback instead of the value obtained by parsing the embedded object in
isolation — refuting the claim's universal over arbitrary surrounding
text. -/
theorem extractor_embedded_object_counterexample :
    Json.parse "\x7b\"a\": 1\x7d" = some (Json.obj [("a", Json.num "1")]) ∧
    extractCandidate "x\x7by \x7b\"a\": 1\x7d" = "\x7by \x7b\"a\": 1\x7d" ∧
    Json.parse (extractCandidate "x\x7by \x7b\"a\": 1\x7d") = none ∧
    processFMECAResponse "x\x7by \x7b\"a\": 1\x7d" =
      (parseFMECAFallback "x\x7by \x7b\"a\": 1\x7d").toJson ∧
    (parseFMECAFallback "x\x7by \x7b\"a\": 1\x7d").toJson ≠
      Json.obj [("a", Json.num "1")] := by
  refine ⟨rfl, rfl, rfl, rfl, fun h => ?_⟩
  simp [parseFMECAFallback, generateMockFMECA, Fmeca.toJson, FmecaEntry.toJson,
    FmecaSummary.toJson] at h

/-- Claim C3 (amended): the extraction step takes the span from the first
`{` to the last `}` of the raw reply (parsing the whole reply when no such
span exists); consequently a reply consisting of one JSON object embedded
in surrounding text whose prefix contains no `{` and whose suffix contains
no `}` is extracted exactly, and parsing it yields the same value as
parsing the embedded text in isolation.  (When the surrounding text itself
contains interfering braces the span starts at the stray brace and the
parse falls back to the canned payload, see the counterexample.) -/
theorem extractor_embedded_object (pre mid post : String) (v : Json)
    (hpre : ∀ x ∈ pre.data, x ≠ '{')
    (hpost : ∀ x ∈ post.data, x ≠ '}')
    (hhead : mid.data.head? = some '{')
    (hlast : mid.data.getLast? = some '}')
    (hparse : Json.parse mid = some v) :
    extractCandidate (pre ++ mid ++ post) = mid ∧
    Json.parse (extractCandidate (pre ++ mid ++ post)) = some v ∧
    processFMECAResponse (pre ++ mid ++ post) = v ∧
    (∀ s : String, firstIdx '{' s.data = none → extractCandidate s = s) ∧
    (∀ s : String, lastIdx '}' s.data = none → extractCandidate s = s) := by
  have he := extractCandidate_embedded pre mid post hpre hpost hhead hlast
  refine ⟨he, by rw [he]; exact hparse, ?_, ?_, ?_⟩
  · simp [processFMECAResponse, he, hparse]
  · intro s hs
    simp [extractCandidate, hs]
  · intro s hs
    unfold extractCandidate
    rw [hs]
    cases firstIdx '{' s.data <;> rfl

/-- Witness for C3: a reply with prose around a one-field object extracts
and parses to exactly that object. -/
theorem extractor_embedded_object_witness :
    Json.parse "\x7b\"a\": 1\x7d" = some (Json.obj [("a", Json.num "1")]) ∧
    processFMECAResponse ("The reply: " ++ "\x7b\"a\": 1\x7d" ++ " Done.") =
      Json.obj [("a", Json.num "1")] := by
  have hparse : Json.parse "\x7b\"a\": 1\x7d" =
      some (Json.obj [("a", Json.num "1")]) := by rfl
  refine ⟨hparse, ?_⟩
  exact (extractor_embedded_object "The reply: " "\x7b\"a\": 1\x7d" " Done."
    (Json.obj [("a", Json.num "1")])
    (by decide) (by decide) (by decide) (by decide) hparse).2.2.1

/-- Claim C4 counterexample: a reply that extracts and parses successfully
with a present but empty `mermaidDiagram` string gets no styling appended —
the appending is guarded by JavaScript truthiness (`if
(ftaData.mermaidDiagram)`), so it is not unconditional, and the processed
diagram (the empty string) cannot end with the nonempty styling block. -/
theorem fta_styling_counterexample :
    Json.parse (extractCandidate "\x7b\"mermaidDiagram\": \"\"\x7d") =
      some (Json.obj [("mermaidDiagram", Json.str "")]) ∧
    processFTAResponse "\x7b\"mermaidDiagram\": \"\"\x7d" =
      Json.obj [("mermaidDiagram", Json.str "")] ∧
    ftaStyling ≠ "" ∧
    (∀ p : String, ("" : String) ≠ p ++ ftaStyling) := by
  have hpos : 0 < ftaStyling.length := by
    rw [show ftaStyling.length = ftaStyling.data.length from rfl]
    rw [show ftaStyling.data = '\n' :: ftaStyling.data.tail from rfl]
    simp
  refine ⟨rfl, rfl, ?_, ?_⟩
  · intro h
    rw [h] at hpos
    simp at hpos
  · intro p h
    have hlen := congrArg String.length h
    rw [String.length_append] at hlen
    simp at hlen
    omega

/-- Claim C4 (amended): for every raw reply that `generateFTA` successfully
extracts and parses into an object whose `mermaidDiagram` field is a truthy
string (any non-empty string, whatever its content and whether or not its
node ids match the fixed assignment list), the fixed styling block is
appended to that field, so the processed diagram text ends with the styling
block verbatim. -/
theorem fta_styling_appended (responseText : String)
    (fields : List (String × Json)) (d : String)
    (hparse : Json.parse (extractCandidate responseText) = some (Json.obj fields))
    (hfield : lookupField fields "mermaidDiagram" = some (Json.str d))
    (hne : d ≠ "") :
    processFTAResponse responseText =
      Json.obj (insertField fields "mermaidDiagram" (Json.str (d ++ ftaStyling))) ∧
    (∃ p, d ++ ftaStyling = p ++ ftaStyling) := by
  refine ⟨?_, d, rfl⟩
  have hget : getProp (Json.obj fields) "mermaidDiagram" = .ok (Json.str d) := by
    simp [getProp, hfield]
  have htruthy : jsTruthy (Json.str d) = true := by
    simp [jsTruthy, hne]
  simp [processFTAResponse, hparse, hget, htruthy, setProp, jsToString]

/-- Witness for the amended C4: a reply whose diagram is the non-empty
string `"flowchart TD"` comes back with the styling block appended. -/
theorem fta_styling_appended_witness :
    Json.parse (extractCandidate "\x7b\"mermaidDiagram\": \"flowchart TD\"\x7d") =
      some (Json.obj [("mermaidDiagram", Json.str "flowchart TD")]) ∧
    processFTAResponse "\x7b\"mermaidDiagram\": \"flowchart TD\"\x7d" =
      Json.obj [("mermaidDiagram", Json.str ("flowchart TD" ++ ftaStyling))] := by
  have hparse : Json.parse
      (extractCandidate "\x7b\"mermaidDiagram\": \"flowchart TD\"\x7d") =
      some (Json.obj [("mermaidDiagram", Json.str "flowchart TD")]) := by rfl
  refine ⟨hparse, ?_⟩
  have h := (fta_styling_appended "\x7b\"mermaidDiagram\": \"flowchart TD\"\x7d"
    [("mermaidDiagram", Json.str "flowchart TD")] "flowchart TD"
    hparse (by rfl) (by decide)).1
  rw [h]
  rfl

/-- Claim C5: `generateSystemStructure` accepts the parsed reply only when
`components`, `connections`, and `safetyStandards` are each present and
array-typed; on any validation failure, parse failure, or call error it
returns one of the four hand-authored canned structures selected by the
keyword heuristic, and (being a total function into `Json`) it never raises
an error to its caller. -/
theorem system_structure_validation (systemName description : String)
    (outcome : CallOutcome) :
    (generateSystemStructure systemName description outcome =
        (generateMockSystemStructure systemName description).toJson ∨
      ∃ responseText structureData, outcome = .success responseText ∧
        Json.parse (jsTrim responseText) = some structureData ∧
        validStructure structureData = true ∧
        generateSystemStructure systemName description outcome = structureData) ∧
    (∀ structureData : Json, validStructure structureData = true ↔
      ((∃ cs, getProp structureData "components" = .ok (Json.arr cs)) ∧
       (∃ ns, getProp structureData "connections" = .ok (Json.arr ns)) ∧
       (∃ ss, getProp structureData "safetyStandards" = .ok (Json.arr ss)))) ∧
    (generateMockSystemStructure systemName description = mockStructuresAutomotive ∨
     generateMockSystemStructure systemName description = mockStructuresAerospace ∨
     generateMockSystemStructure systemName description = mockStructuresMedical ∨
     generateMockSystemStructure systemName description = mockStructuresIndustrial) := by
  refine ⟨?_, ?_, ?_⟩
  · cases outcome with
    | failure e => left; rfl
    | success responseText =>
      cases hp : Json.parse (jsTrim responseText) with
      | none => left; simp [generateSystemStructure, hp]
      | some structureData =>
        by_cases hv : validStructure structureData = true
        · right
          exact ⟨responseText, structureData, rfl, hp, hv,
            by simp [generateSystemStructure, hp, hv]⟩
        · left
          simp [generateSystemStructure, hp, hv]
  · intro structureData
    constructor
    · intro hv
      unfold validStructure at hv
      split at hv
      · rename_i c n s hcm hnm hsm
        simp only [Bool.and_eq_true] at hv
        obtain ⟨⟨h1, h2⟩, h3⟩ := hv
        refine ⟨?_, ?_, ?_⟩
        · cases c <;> simp_all
        · cases n <;> simp_all
        · cases s <;> simp_all
      · exact absurd hv (by simp)
    · rintro ⟨⟨cs, hc⟩, ⟨ns, hn⟩, ⟨ss, hs⟩⟩
      unfold validStructure
      rw [hc, hn, hs]
      rfl
  · have h : ∀ key : String,
        (mockStructures key).getD mockStructuresIndustrial = mockStructuresAutomotive ∨
        (mockStructures key).getD mockStructuresIndustrial = mockStructuresAerospace ∨
        (mockStructures key).getD mockStructuresIndustrial = mockStructuresMedical ∨
        (mockStructures key).getD mockStructuresIndustrial = mockStructuresIndustrial := by
      intro key
      unfold mockStructures
      split_ifs <;> simp
    have hg : generateMockSystemStructure systemName description =
        (mockStructures (determineSystemType systemName description)).getD
          mockStructuresIndustrial := rfl
    rw [hg]
    exact h _

/-- Claim C6: the combined `/generate` operation is a function of both
settled generation outcomes (`Promise.all` of the two calls): when the
failure-mode generation resolves and the fault-tree generation rejects with
a surfaced error, the whole operation rejects with exactly that error, and
no partial single-report success is ever returned. -/
theorem combined_generate_all_or_nothing (validatedInput : SystemDescription)
    (isStructured : Bool) (fmecaOutcome ftaOutcome : CallOutcome)
    (a : Json) (m : String)
    (hf : generateFMECA validatedInput isStructured fmecaOutcome = .ok a)
    (ht : generateFTA validatedInput isStructured ftaOutcome = .error m) :
    combinedGenerate validatedInput isStructured fmecaOutcome ftaOutcome =
      .error m ∧
    ∀ p : Json × Json,
      combinedGenerate validatedInput isStructured fmecaOutcome ftaOutcome ≠
        .ok p := by
  have hc : combinedGenerate validatedInput isStructured fmecaOutcome ftaOutcome =
      .error m := by
    unfold combinedGenerate
    rw [hf, ht]
  exact ⟨hc, fun p hp => by rw [hc] at hp; exact Except.noConfusion hp⟩

/-- Witness for C6: an FMECA success combined with an FTA credential error
rejects with the credential-error message. -/
theorem combined_generate_all_or_nothing_witness :
    combinedGenerate { description := "d" } false (.success "raw")
      (.failure { code := some "invalid_api_key" }) = .error invalidKeyMessage := by
  exact (combined_generate_all_or_nothing { description := "d" } false
    (.success "raw") (.failure { code := some "invalid_api_key" })
    (processFMECAResponse "raw") invalidKeyMessage rfl rfl).1

/-- Claim C7: the system-type classifier is a case-insensitive substring
match over `systemName + ' ' + description`, testing the aerospace keywords
(aircraft, aviation, flight, aerospace) first, then automotive, then
medical, defaulting to industrial; in particular, for the name
`"Aircraft Flight Control"` (whatever the description says) the fallback
selects the aerospace canned template, whose components list starts with
`"Flight Control Computer"`. -/
theorem system_type_classifier (systemName description : String) :
    (((strIncludes (jsToLower (systemName ++ " " ++ description)) "aircraft" ||
       strIncludes (jsToLower (systemName ++ " " ++ description)) "aviation" ||
       strIncludes (jsToLower (systemName ++ " " ++ description)) "flight" ||
       strIncludes (jsToLower (systemName ++ " " ++ description)) "aerospace") = true →
      determineSystemType systemName description = "aerospace") ∧
     ((strIncludes (jsToLower (systemName ++ " " ++ description)) "aircraft" ||
       strIncludes (jsToLower (systemName ++ " " ++ description)) "aviation" ||
       strIncludes (jsToLower (systemName ++ " " ++ description)) "flight" ||
       strIncludes (jsToLower (systemName ++ " " ++ description)) "aerospace") = false →
      (strIncludes (jsToLower (systemName ++ " " ++ description)) "automotive" ||
       strIncludes (jsToLower (systemName ++ " " ++ description)) "vehicle" ||
       strIncludes (jsToLower (systemName ++ " " ++ description)) "car" ||
       strIncludes (jsToLower (systemName ++ " " ++ description)) "brake") = true →
      determineSystemType systemName description = "automotive") ∧
     ((strIncludes (jsToLower (systemName ++ " " ++ description)) "aircraft" ||
       strIncludes (jsToLower (systemName ++ " " ++ description)) "aviation" ||
       strIncludes (jsToLower (systemName ++ " " ++ description)) "flight" ||
       strIncludes (jsToLower (systemName ++ " " ++ description)) "aerospace") = false →
      (strIncludes (jsToLower (systemName ++ " " ++ description)) "automotive" ||
       strIncludes (jsToLower (systemName ++ " " ++ description)) "vehicle" ||
       strIncludes (jsToLower (systemName ++ " " ++ description)) "car" ||
       strIncludes (jsToLower (systemName ++ " " ++ description)) "brake") = false →
      (strIncludes (jsToLower (systemName ++ " " ++ description)) "patient" ||
       strIncludes (jsToLower (systemName ++ " " ++ description)) "medical" ||
       strIncludes (jsToLower (systemName ++ " " ++ description)) "hospital" ||
       strIncludes (jsToLower (systemName ++ " " ++ description)) "health") = true →
      determineSystemType systemName description = "medical") ∧
     ((strIncludes (jsToLower (systemName ++ " " ++ description)) "aircraft" ||
       strIncludes (jsToLower (systemName ++ " " ++ description)) "aviation" ||
       strIncludes (jsToLower (systemName ++ " " ++ description)) "flight" ||
       strIncludes (jsToLower (systemName ++ " " ++ description)) "aerospace") = false →
      (strIncludes (jsToLower (systemName ++ " " ++ description)) "automotive" ||
       strIncludes (jsToLower (systemName ++ " " ++ description)) "vehicle" ||
       strIncludes (jsToLower (systemName ++ " " ++ description)) "car" ||
       strIncludes (jsToLower (systemName ++ " " ++ description)) "brake") = false →
      (strIncludes (jsToLower (systemName ++ " " ++ description)) "patient" ||
       strIncludes (jsToLower (systemName ++ " " ++ description)) "medical" ||
       strIncludes (jsToLower (systemName ++ " " ++ description)) "hospital" ||
       strIncludes (jsToLower (systemName ++ " " ++ description)) "health") = false →
      determineSystemType systemName description = "industrial")) ∧
    (∀ d : String, determineSystemType "Aircraft Flight Control" d = "aerospace" ∧
      generateMockSystemStructure "Aircraft Flight Control" d = mockStructuresAerospace) ∧
    (∃ c rest, mockStructuresAerospace.components = c :: rest ∧
      c.name = "Flight Control Computer") := by
  refine ⟨⟨?_, ?_, ?_, ?_⟩, ?_, ⟨_, _, rfl, rfl⟩⟩
  · intro h; simp [determineSystemType, h]
  · intro h1 h2; simp [determineSystemType, h1, h2]
  · intro h1 h2 h3; simp [determineSystemType, h1, h2, h3]
  · intro h1 h2 h3; simp [determineSystemType, h1, h2, h3]
  · intro d
    have key : strIncludes
        (jsToLower ("Aircraft Flight Control " ++ d)) "aircraft" = true := by
      rw [jsToLower_append]
      rw [show jsToLower "Aircraft Flight Control " =
        "aircraft flight control " from by decide]
      apply occursIn_of_isPrefixOf
      rw [String.data_append]
      exact isPrefixOf_append (by decide)
    constructor
    · simp [determineSystemType, key]
    · have hg : generateMockSystemStructure "Aircraft Flight Control" d =
          (mockStructures (determineSystemType "Aircraft Flight Control" d)).getD
            mockStructuresIndustrial := rfl
      rw [hg, show determineSystemType "Aircraft Flight Control" d =
        "aerospace" from by simp [determineSystemType, key]]
      simp [mockStructures]

/-- Witness for C7: an aviation-keyword description classifies as
aerospace, and the "Aircraft Flight Control" scenario selects the
aerospace canned template. -/
theorem system_type_classifier_witness :
    determineSystemType "Cabin Pressure Monitor" "An aviation cabin system" =
      "aerospace" ∧
    determineSystemType "Aircraft Flight Control" "Redundant fly-by-wire" =
      "aerospace" ∧
    generateMockSystemStructure "Aircraft Flight Control" "Redundant fly-by-wire" =
      mockStructuresAerospace := by
  obtain ⟨⟨haero, -, -, -⟩, hall, -⟩ :=
    system_type_classifier "Cabin Pressure Monitor" "An aviation cabin system"
  obtain ⟨h1, h2⟩ := hall "Redundant fly-by-wire"
  exact ⟨haero (by decide), h1, h2⟩

/-- Claim C8: for every input the mock generator is called with, every
entry of the canned FMECA payload satisfies
`rpn = severity * occurrence * detection`, and the first fixture entry has
severity 8, occurrence 3, detection 4 and rpn 96. -/
theorem mock_fmeca_rpn_product (systemDescription : SystemDescription)
    (isStructured : Bool) :
    (∀ e ∈ (generateMockFMECA systemDescription isStructured).fmecaTable,
      e.rpn = e.severity * e.occurrence * e.detection) ∧
    (∃ e₀, e₀ ∈ (generateMockFMECA systemDescription isStructured).fmecaTable ∧
      (generateMockFMECA systemDescription isStructured).fmecaTable.head? = some e₀ ∧
      e₀.severity = 8 ∧ e₀.occurrence = 3 ∧ e₀.detection = 4 ∧ e₀.rpn = 96) := by
  constructor
  · intro e he
    simp only [generateMockFMECA, List.mem_cons, List.not_mem_nil, or_false] at he
    rcases he with h | h | h <;> subst h <;> rfl
  · exact ⟨_, by simp [generateMockFMECA], rfl, rfl, rfl, rfl, rfl⟩

/-- Witness for C8: the first canned entry of a concrete mock call
satisfies the product law with the fixture numbers. -/
theorem mock_fmeca_rpn_product_witness :
    ∃ e₀, e₀ ∈ (generateMockFMECA { description := "brake system" } false).fmecaTable ∧
      e₀.rpn = e₀.severity * e₀.occurrence * e₀.detection ∧
      e₀.severity = 8 ∧ e₀.occurrence = 3 ∧ e₀.detection = 4 ∧ e₀.rpn = 96 := by
  obtain ⟨hall, e₀, hmem, -, h8, h3, h4, h96⟩ :=
    mock_fmeca_rpn_product { description := "brake system" } false
  exact ⟨e₀, hmem, hall e₀ hmem, h8, h3, h4, h96⟩

/-- Claim C9: for every structured input, the prompts rendered by
`generateFMECA` and `generateFTA` contain every component's name and
function string verbatim, in the original list order, with no truncation
(the interleaved `[name, function, …]` sequence occurs disjointly in list
order inside the prompt text). -/
theorem prompts_contain_components (systemDescription : SystemDescription) :
    containsInOrder (fmecaPrompt systemDescription true)
      (systemDescription.components.flatMap fun c => [c.name, c.function]) ∧
    containsInOrder (ftaPrompt systemDescription true)
      (systemDescription.components.flatMap fun c => [c.name, c.function]) := by
  constructor
  · have h := containsInOrder_join systemDescription.components
      (fmecaPromptPrefix ++ ("System: " ++ systemDescription.systemName.getD "undefined" ++
        "\nDescription: " ++ systemDescription.description ++ "\nComponents: "))
      ("\nSafety Standards: " ++ safetyStandardsText systemDescription.safetyStandards ++
        fmecaPromptSuffix)
    have he : fmecaPrompt systemDescription true =
        (fmecaPromptPrefix ++ ("System: " ++ systemDescription.systemName.getD "undefined" ++
          "\nDescription: " ++ systemDescription.description ++ "\nComponents: ")) ++
        joinSep ", " (systemDescription.components.map componentText) ++
        ("\nSafety Standards: " ++ safetyStandardsText systemDescription.safetyStandards ++
          fmecaPromptSuffix) := by
      simp [fmecaPrompt, fmecaSystemInfo, String.append_assoc]
    rw [he]
    exact h
  · have h := containsInOrder_join systemDescription.components
      (ftaPromptPrefix ++ ("System: " ++ systemDescription.systemName.getD "undefined" ++
        "\nDescription: " ++ systemDescription.description ++ "\nComponents: "))
      ftaPromptSuffix
    have he : ftaPrompt systemDescription true =
        (ftaPromptPrefix ++ ("System: " ++ systemDescription.systemName.getD "undefined" ++
          "\nDescription: " ++ systemDescription.description ++ "\nComponents: ")) ++
        joinSep ", " (systemDescription.components.map componentText) ++
        ftaPromptSuffix := by
      simp [ftaPrompt, ftaSystemInfo, String.append_assoc]
    rw [he]
    exact h

/-- Claim C10: the two silent-fallback paths of `generateFMECA` differ for
any structured input whose `systemName` is not `"System"`: a non-surfaced
call failure embeds the caller's system name in the mock entries, while a
parse failure after a successful call discards the caller's description and
builds the mock payload with the generic name `"System"`. -/
theorem fmeca_fallback_paths_differ (systemDescription : SystemDescription)
    (n : String) (responseText : String) (e : ApiError)
    (hn : systemDescription.systemName = some n)
    (hne : n ≠ "System")
    (h1 : e.code ≠ some "insufficient_quota")
    (h2 : e.code ≠ some "invalid_api_key")
    (h3 : e.status ≠ some 429)
    (hraw : Json.parse (extractCandidate responseText) = none) :
    generateFMECA systemDescription true (.failure e) =
      .ok (generateMockFMECA systemDescription true).toJson ∧
    generateFMECA systemDescription true (.success responseText) =
      .ok (generateMockFMECA { description := "System analysis" } false).toJson ∧
    generateFMECA systemDescription true (.failure e) ≠
      generateFMECA systemDescription true (.success responseText) := by
  have hA : generateFMECA systemDescription true (.failure e) =
      .ok (generateMockFMECA systemDescription true).toJson := by
    simp [generateFMECA, h1, h2, h3]
  have hB : generateFMECA systemDescription true (.success responseText) =
      .ok (generateMockFMECA { description := "System analysis" } false).toJson := by
    simp [generateFMECA, processFMECAResponse, hraw, parseFMECAFallback]
  refine ⟨hA, hB, ?_⟩
  rw [hA, hB]
  intro hcontra
  injection hcontra with hXY
  have hname : (generateMockFMECA systemDescription true).fmecaTable.map
        FmecaEntry.itemFunction =
      (generateMockFMECA { description := "System analysis" } false).fmecaTable.map
        FmecaEntry.itemFunction := by
    have hk := congrArg (fun j =>
      match j with
      | Json.obj (("fmecaTable", Json.arr entries) :: _) =>
        entries.map (fun ej =>
          match ej with
          | Json.obj (("itemFunction", Json.str s) :: _) => s
          | _ => "")
      | _ => []) hXY
    simpa [Fmeca.toJson, FmecaEntry.toJson] using hk
  simp only [generateMockFMECA, hn, Option.getD_some, List.map_cons, List.map_nil,
    if_true] at hname
  have hfirst : n ++ " - Primary Component" = "System" ++ " - Primary Component" := by
    simpa using congrArg List.head? hname
  exact hne (string_append_right_cancel hfirst)

/-- Witness for C10: for the structured system "Brake Unit", the
transport-failure fallback and the parse-failure fallback give different
payloads. -/
theorem fmeca_fallback_paths_differ_witness :
    generateFMECA { systemName := some "Brake Unit", description := "d" } true
      (.failure {}) ≠
    generateFMECA { systemName := some "Brake Unit", description := "d" } true
      (.success "oops") := by
  obtain ⟨-, -, hd⟩ := fmeca_fallback_paths_differ
    { systemName := some "Brake Unit", description := "d" } "Brake Unit" "oops" {}
    rfl (by decide) (by decide) (by decide) (by decide) (by rfl)
  exact hd
